import Mathlib

/-!
Shallow embedding of the session-lifecycle core of the QlikSense-MCP-server
repository (src/browser_manager.py, src/qlik_client.py,
src/browser_qlik_client.py), together with theorems settling the frozen
claims about it.

Conventions of the embedding:
* Python exceptions become explicit `Except` results; an exception type with a
  message string (`PyErr`) models generic Python exceptions, and `QErr` models
  the client error taxonomy (QlikAuthenticationError / QlikConnectionError /
  ValueError).
* Calls into the Playwright / requests libraries are modelled by a `World`
  record of oracles giving each call's outcome; the functions of the
  repository are translated over those oracles, threading the object state
  (`self`) explicitly.
* `time.sleep` calls and request issues are observed through explicit
  counters / event traces returned next to the result; logging calls are
  pure observations and are dropped.
-/

/-- A browser cookie, as produced by `context.cookies()` (a dict with at least
`name` and `value` keys). -/
structure Cookie where
  name : String
  value : String
deriving Repr, DecidableEq

/-- A browser context handle; the model lets the handle carry the cookie jar
that `context.cookies()` would report. -/
abbrev Ctx := List Cookie

/-- A generic Python exception carrying its `str(e)` message. -/
inductive PyErr where
  | exc (msg : String)
deriving Repr, DecidableEq

/-- `str(e)` of a generic exception. -/
def pyMsg : PyErr → String
  | .exc m => m

/-- `str(last_exception)` where `last_exception` may still be `None`. -/
def pyMsgOpt : Option PyErr → String
  | none => "None"
  | some e => pyMsg e

/-- Events recorded by the `BrowserManager` model: each call into a Playwright
handle is logged so that theorems can observe which releases/constructions
were attempted. -/
inductive BMEv where
  | startPW | launchBrowser | newContext | newPage | probe
  | closePage | closeContext | closeBrowser | stopPW
deriving Repr, DecidableEq

/-- Oracle record for the Playwright calls made by `BrowserManager`; each field
is the outcome the library would deliver for that call. -/
structure BMWorld where
  startPlaywright : Except PyErr Unit
  launchBrowser : Except PyErr Unit
  newContext : Except PyErr Ctx
  newPage : Except PyErr Unit
  setTimeouts : Except PyErr Unit
  probe : Except PyErr Unit
  closePage : Except PyErr Unit
  closeContext : Except PyErr Unit
  closeBrowser : Except PyErr Unit
  stopPlaywright : Except PyErr Unit
deriving Repr

/-- The mutable fields of a `BrowserManager` instance (src/browser_manager.py,
`__init__`): the four optional handles plus the status-tracking fields. -/
structure BMState where
  playwright : Option Unit
  browser : Option Unit
  context : Option Ctx
  page : Option Unit
  is_started : Bool
  last_error : Option PyErr
deriving Repr, DecidableEq

/-- The field state right after `BrowserManager.__init__`. -/
def bmInit : BMState :=
  { playwright := none, browser := none, context := none, page := none
    is_started := false, last_error := none }

/-- Last stage of `BrowserManager.cleanup`: `if self.playwright:
self.playwright.stop(); self.playwright = None` and then
`self.is_started = False`; a raised exception is caught by the method's
single `except` and ends the method with the remaining statements skipped. -/
def bmCleanupStop (w : BMWorld) (s : BMState) : BMState × List BMEv :=
  match s.playwright with
  | some _ =>
    match w.stopPlaywright with
    | .error _ => (s, [BMEv.stopPW])
    | .ok _ => ({ s with playwright := none, is_started := false }, [BMEv.stopPW])
  | none => ({ s with is_started := false }, [])

/-- `cleanup` stage for `self.browser` (see `bmCleanupStop`). -/
def bmCleanupBrowser (w : BMWorld) (s : BMState) : BMState × List BMEv :=
  match s.browser with
  | some _ =>
    match w.closeBrowser with
    | .error _ => (s, [BMEv.closeBrowser])
    | .ok _ =>
      let (s', es) := bmCleanupStop w { s with browser := none }
      (s', BMEv.closeBrowser :: es)
  | none => bmCleanupStop w s

/-- `cleanup` stage for `self.context` (see `bmCleanupStop`). -/
def bmCleanupContext (w : BMWorld) (s : BMState) : BMState × List BMEv :=
  match s.context with
  | some _ =>
    match w.closeContext with
    | .error _ => (s, [BMEv.closeContext])
    | .ok _ =>
      let (s', es) := bmCleanupBrowser w { s with context := none }
      (s', BMEv.closeContext :: es)
  | none => bmCleanupBrowser w s

/-- `BrowserManager.cleanup` (src/browser_manager.py lines 238-263): closes
page, context, browser, playwright in that order and clears `is_started`,
with the whole body inside one `try`; the first failing release aborts the
rest of the body and the exception is swallowed (only logged). -/
def bmCleanup (w : BMWorld) (s : BMState) : BMState × List BMEv :=
  match s.page with
  | some _ =>
    match w.closePage with
    | .error _ => (s, [BMEv.closePage])
    | .ok _ =>
      let (s', es) := bmCleanupPageDone w { s with page := none }
      (s', BMEv.closePage :: es)
  | none => bmCleanupContext w s
where
  /-- continuation of `cleanup` after the page stage. -/
  bmCleanupPageDone (w : BMWorld) (s : BMState) : BMState × List BMEv :=
    bmCleanupContext w s

/-- `BrowserManager.start` (src/browser_manager.py lines 46-102): a single
construction attempt guarded by `is_started`; any exception sets
`last_error`, runs `cleanup`, and makes the method return `False`.  The
`BMEv.startPW` event marks the `sync_playwright().start()` call, i.e. the
beginning of one construction attempt. -/
def bmStart (w : BMWorld) (s : BMState) : Bool × BMState × List BMEv :=
  if s.is_started then (true, s, [])
  else
    match w.startPlaywright with
    | .error e =>
      let (s', es) := bmCleanup w { s with last_error := some e }
      (false, s', BMEv.startPW :: es)
    | .ok _ =>
      let s1 : BMState := { s with playwright := some () }
      match w.launchBrowser with
      | .error e =>
        let (s', es) := bmCleanup w { s1 with last_error := some e }
        (false, s', BMEv.startPW :: BMEv.launchBrowser :: es)
      | .ok _ =>
        let s2 : BMState := { s1 with browser := some () }
        match w.newContext with
        | .error e =>
          let (s', es) := bmCleanup w { s2 with last_error := some e }
          (false, s', BMEv.startPW :: BMEv.launchBrowser :: BMEv.newContext :: es)
        | .ok ctx =>
          let s3 : BMState := { s2 with context := some ctx }
          match w.newPage with
          | .error e =>
            let (s', es) := bmCleanup w { s3 with last_error := some e }
            (false, s',
              BMEv.startPW :: BMEv.launchBrowser :: BMEv.newContext :: BMEv.newPage :: es)
          | .ok _ =>
            let s4 : BMState := { s3 with page := some () }
            match w.setTimeouts with
            | .error e =>
              let (s', es) := bmCleanup w { s4 with last_error := some e }
              (false, s',
                BMEv.startPW :: BMEv.launchBrowser :: BMEv.newContext :: BMEv.newPage :: es)
            | .ok _ =>
              (true, { s4 with is_started := true },
                [BMEv.startPW, BMEv.launchBrowser, BMEv.newContext, BMEv.newPage])

/-- `BrowserManager.restart` (lines 104-116): `cleanup` then `start`. -/
def bmRestart (w : BMWorld) (s : BMState) : Bool × BMState × List BMEv :=
  let (s1, es1) := bmCleanup w s
  let (b, s2, es2) := bmStart w s1
  (b, s2, es1 ++ es2)

/-- `BrowserManager.is_healthy` (lines 118-136): `False` when not started or
no page; otherwise one probe (`page.evaluate`) whose exception is caught,
recorded in `last_error` and turned into `False`. -/
def bmIsHealthy (w : BMWorld) (s : BMState) : Bool × BMState × List BMEv :=
  if s.is_started = false then (false, s, [])
  else
    match s.page with
    | none => (false, s, [])
    | some _ =>
      match w.probe with
      | .ok _ => (true, s, [BMEv.probe])
      | .error e => (false, { s with last_error := some e }, [BMEv.probe])

/-- `BrowserManager.recover_from_error` (lines 138-191): health check first;
then (inside its own `try`) a new page when a context exists without a page;
then (inside its own `try`) a new context+page when a browser exists without a
context; finally a full `restart`. -/
def bmRecover (w : BMWorld) (s : BMState) : Bool × BMState × List BMEv :=
  let (h, s1, e1) := bmIsHealthy w s
  if h then (true, s1, e1)
  else
    let (r2, s2, e2) := bmRecoverPage w s1
    match r2 with
    | some b => (b, s2, e1 ++ e2)
    | none =>
      let (r3, s3, e3) := bmRecoverContext w s2
      match r3 with
      | some b => (b, s3, e1 ++ e2 ++ e3)
      | none =>
        let (b, s4, e4) := bmRestart w s3
        (b, s4, e1 ++ e2 ++ e3 ++ e4)
where
  /-- the `if self.context and not self.page` block: `none` means fall
  through to the next recovery stage. -/
  bmRecoverPage (w : BMWorld) (s : BMState) : Option Bool × BMState × List BMEv :=
    if s.context.isSome && s.page.isNone then
      match w.newPage with
      | .error _ => (none, s, [BMEv.newPage])
      | .ok _ =>
        let s1 : BMState := { s with page := some () }
        match w.setTimeouts with
        | .error _ => (none, s1, [BMEv.newPage])
        | .ok _ =>
          let (h, s2, es) := bmIsHealthy w s1
          if h then (some true, s2, BMEv.newPage :: es)
          else (none, s2, BMEv.newPage :: es)
    else (none, s, [])
  /-- the `if self.browser and not self.context` block. -/
  bmRecoverContext (w : BMWorld) (s : BMState) : Option Bool × BMState × List BMEv :=
    if s.browser.isSome && s.context.isNone then
      match w.newContext with
      | .error _ => (none, s, [BMEv.newContext])
      | .ok ctx =>
        let s1 : BMState := { s with context := some ctx }
        match w.newPage with
        | .error _ => (none, s1, [BMEv.newContext, BMEv.newPage])
        | .ok _ =>
          let s2 : BMState := { s1 with page := some () }
          match w.setTimeouts with
          | .error _ => (none, s2, [BMEv.newContext, BMEv.newPage])
          | .ok _ =>
            let (h, s3, es) := bmIsHealthy w s2
            if h then (some true, s3, BMEv.newContext :: BMEv.newPage :: es)
            else (none, s3, BMEv.newContext :: BMEv.newPage :: es)
    else (none, s, [])

/-- `BrowserManager.get_cookies` (lines 265-274): the context's cookies, or
`[]` when no context exists. -/
def bmGetCookies (s : BMState) : List Cookie :=
  match s.context with
  | some ctx => ctx
  | none => []

/-- The cookie-scanning loop of `get_session_cookie` (and of the two
`authenticate` methods): first cookie whose `name` matches wins. -/
def findCookie (name : String) : List Cookie → Option String
  | [] => none
  | c :: cs => if c.name = name then some c.value else findCookie name cs

/-- `BrowserManager.get_session_cookie` (lines 276-290). -/
def bmGetSessionCookie (s : BMState) (cookie_name : String) : Option String :=
  findCookie cookie_name (bmGetCookies s)

/-- The body of the `try` in one iteration of
`BrowserManager.execute_with_retry` (lines 211-224): ensure started, ensure
healthy (recovering if not), then run the operation on `self.page`.  The
operation is an oracle indexed by the call number so that distinct calls may
behave differently. -/
def bmTryBody {α : Type} (w : BMWorld) (op : Nat → Option Unit → Except PyErr α)
    (i : Nat) (s : BMState) : Except PyErr α × BMState :=
  if s.is_started = false then
    let (b, s1, _) := bmStart w s
    if b then bmTryBodyStarted w op i s1
    else (.error (.exc "Kon browser niet starten"), s1)
  else bmTryBodyStarted w op i s
where
  /-- health check + operation part of the body. -/
  bmTryBodyStarted (w : BMWorld) (op : Nat → Option Unit → Except PyErr α)
      (i : Nat) (s : BMState) : Except PyErr α × BMState :=
    let (h, s1, _) := bmIsHealthy w s
    if h then (op i s1.page, s1)
    else
      let (r, s2, _) := bmRecover w s1
      if r then (op i s2.page, s2)
      else (.error (.exc "Kon browser niet herstellen"), s2)

/-- The `for attempt in range(max_retries + 1)` loop of `execute_with_retry`
(lines 209-236), with `fuel` the number of remaining iterations.  Returns the
result, the final state, the number of iterations performed and the total
seconds passed to `time.sleep`.  After the loop the method raises
`Exception(f"Operatie mislukt na {max_retries + 1} pogingen: ...")`. -/
def bmExecLoop {α : Type} (w : BMWorld) (op : Nat → Option Unit → Except PyErr α)
    (maxRetries : Nat) :
    Nat → Nat → BMState → Option PyErr → Except PyErr α × BMState × Nat × Nat
  | _, 0, s, last =>
    (.error (.exc ("Operatie mislukt na " ++ toString (maxRetries + 1)
        ++ " pogingen: " ++ pyMsgOpt last)), s, 0, 0)
  | attempt, fuel + 1, s, _last =>
    match bmTryBody w op attempt s with
    | (.ok a, s1) => (.ok a, s1, 1, 0)
    | (.error e, s1) =>
      if attempt < maxRetries then
        let (_, s2, _) := bmRecover w s1
        let (res, s3, n, sl) := bmExecLoop w op maxRetries (attempt + 1) fuel s2 (some e)
        (res, s3, n + 1, sl + 2 ^ attempt)
      else
        let (res, s3, n, sl) := bmExecLoop w op maxRetries (attempt + 1) fuel s1 (some e)
        (res, s3, n + 1, sl)

/-- `BrowserManager.execute_with_retry` (lines 193-236). -/
def bmExecuteWithRetry {α : Type} (w : BMWorld) (op : Nat → Option Unit → Except PyErr α)
    (maxRetries : Nat) (s : BMState) : Except PyErr α × BMState × Nat × Nat :=
  bmExecLoop w op maxRetries 0 (maxRetries + 1) s none

/-- The error taxonomy of the two clients (src/qlik_client.py lines 19-26,
src/browser_qlik_client.py lines 20-27, plus `ValueError` used for input
validation), each carrying its message. -/
inductive QErr where
  | auth (msg : String)
  | conn (msg : String)
  | valueError (msg : String)
deriving Repr, DecidableEq

/-- `str(e)` of a client exception. -/
def qerrMsg : QErr → String
  | .auth m => m
  | .conn m => m
  | .valueError m => m

/-- A `requests` library exception: `Timeout`, `ConnectionError`, a generic
`RequestException` with its message, or the `HTTPError` produced by
`response.raise_for_status()` (all of which subclass `RequestException`).
The message text the library would attach is abstracted. -/
inductive TransErr where
  | timeout
  | connFail
  | reqExc (msg : String)
  | httpError (status : Nat)
deriving Repr, DecidableEq

/-- `str(e)` of a `requests` exception (library message text abstracted). -/
def transMsg : TransErr → String
  | .timeout => "Timeout"
  | .connFail => "ConnectionError"
  | .reqExc m => m
  | .httpError st => "HTTPError " ++ toString st

/-- One execution-detail entry of a QRS execution result, with Python
`dict.get` defaults modelled by `Option`. -/
structure Detail where
  message : Option String
  detailType : Option Int
  timestamp : Option String
deriving Repr, DecidableEq

/-- The `task` sub-dict of an execution result (`{}`/absent both map to the
default task name, so only the `name` key is modelled). -/
structure TaskInfo where
  name : Option String
deriving Repr, DecidableEq

/-- One raw QRS execution result, with exactly the keys the `get_logs`
formatting loop reads. -/
structure ExecResult where
  id : Option String
  status : Option Int
  task : Option TaskInfo
  details : Option (List Detail)
  startTime : Option String
  stopTime : Option String
  duration : Option Int
  createdDate : Option String
  modifiedDate : Option String
  executionId : Option String
  sessionId : Option String
deriving Repr, DecidableEq

/-- One entry of the `script_log` list built by `get_logs`. -/
structure ScriptLogEntry where
  timestamp : String
  type : String
  message : String
deriving Repr, DecidableEq

/-- One formatted log dict returned by `get_logs` (src/qlik_client.py lines
491-510 and the identical src/browser_qlik_client.py lines 633-652). -/
structure FmtLog where
  id : String
  task_id : String
  task_name : String
  status : String
  status_code : Int
  start_time : String
  stop_time : String
  duration_ms : Int
  duration_formatted : String
  details_count : Nat
  script_log : List ScriptLogEntry
  error_messages : List String
  has_errors : Bool
  created : String
  modified : String
  execution_id : String
  session_id : String
  raw_details : List Detail
deriving Repr, DecidableEq

/-- The `status_mapping` dict of `get_logs` with its
`f'Unknown({status_code})'` default. -/
def statusText (code : Int) : String :=
  if code = 0 then "NeverStarted"
  else if code = 1 then "Triggered"
  else if code = 2 then "Started"
  else if code = 3 then "Queued"
  else if code = 4 then "AbortInitiated"
  else if code = 5 then "Aborting"
  else if code = 6 then "Aborted"
  else if code = 7 then "FinishedSuccess"
  else if code = 8 then "FinishedFail"
  else if code = 9 then "Skipped"
  else if code = 10 then "Retry"
  else if code = 11 then "Error"
  else if code = 12 then "Reset"
  else "Unknown(" ++ toString code ++ ")"

/-- The `for detail in details` loop of `get_logs`: `detailType == 2` goes to
`error_messages`, everything else to `script_log`, preserving order. -/
def splitDetails : List Detail → List ScriptLogEntry × List String
  | [] => ([], [])
  | d :: ds =>
    let (sl, em) := splitDetails ds
    let msg := d.message.getD ""
    let dt := d.detailType.getD 0
    if dt = 2 then (sl, msg :: em)
    else
      ({ timestamp := d.timestamp.getD ""
         type := if dt = 1 then "Warning" else "Information"
         message := msg } :: sl, em)

/-- `task_id.replace('Z', '+00:00')` applied before `datetime.fromisoformat`. -/
def pyReplaceZ (s : String) : String :=
  s.replace "Z" "+00:00"

/-- The duration computation of `get_logs`: when both timestamps are
non-empty, the `datetime` library (modelled by the oracle `iso`, returning
`none` when `fromisoformat` raises) yields the millisecond difference;
otherwise, and on a parse failure, fall back to `result.get('duration', 0)`. -/
def computeDurationMs (iso : String → String → Option Int) (r : ExecResult) : Int :=
  let st := r.startTime.getD ""
  let sp := r.stopTime.getD ""
  if st.isEmpty || sp.isEmpty then r.duration.getD 0
  else
    match iso (pyReplaceZ st) (pyReplaceZ sp) with
    | some ms => ms
    | none => r.duration.getD 0

/-- Round `n` tenths-of-hundredth, i.e. compute `n / 10` rounded
half-to-even; used to model CPython's `f"{ms / 1000:.2f}"` on the exact
value (binary-float artifacts of extreme magnitudes are not modelled). -/
def roundHalfEvenDiv10 (n : Int) : Int :=
  let q := n / 10
  let r := n % 10
  if r > 5 then q + 1
  else if r < 5 then q
  else if q % 2 = 0 then q else q + 1

/-- `f"{duration_ms / 1000:.2f}s"` for a positive `duration_ms`. -/
def pyFmt2s (ms : Int) : String :=
  let h := roundHalfEvenDiv10 ms
  let ip := h / 100
  let fr := h % 100
  toString ip ++ "." ++ (if fr < 10 then "0" ++ toString fr else toString fr) ++ "s"

/-- The body of the `for result in execution_results` loop of `get_logs`
(identical in both clients), building one formatted log dict. -/
def formatLog (iso : String → String → Option Int) (tid : String)
    (r : ExecResult) : FmtLog :=
  let statusCode := r.status.getD (-1)
  let details := r.details.getD []
  let (sl, em) := splitDetails details
  let dms := computeDurationMs iso r
  { id := r.id.getD ""
    task_id := tid
    task_name := match r.task with
      | none => "Onbekend"
      | some ti => ti.name.getD "Onbekend"
    status := statusText statusCode
    status_code := statusCode
    start_time := r.startTime.getD ""
    stop_time := r.stopTime.getD ""
    duration_ms := dms
    duration_formatted := if dms > 0 then pyFmt2s dms else "0s"
    details_count := details.length
    script_log := sl
    error_messages := em
    has_errors := decide (0 < em.length)
    created := r.createdDate.getD ""
    modified := r.modifiedDate.getD ""
    execution_id := r.executionId.getD ""
    session_id := r.sessionId.getD ""
    raw_details := details }

/-- One step of the stable descending sort performed by
`formatted_logs.sort(key=lambda x: x.get('start_time', ''), reverse=True)`:
insert `x` before the first element with a strictly smaller key, so that
elements with equal keys keep their original relative order. -/
def insertLogDesc (x : FmtLog) : List FmtLog → List FmtLog
  | [] => [x]
  | y :: ys =>
    if y.start_time < x.start_time then x :: y :: ys
    else y :: insertLogDesc x ys

/-- The `sort(..., reverse=True)` call of `get_logs`: a stable sort on the
`start_time` string, newest (lexicographically largest) first. -/
def sortLogsDesc (l : List FmtLog) : List FmtLog :=
  l.foldl (fun acc x => insertLogDesc x acc) []

/-- Characters stripped by Python's default `str.strip()` (ASCII range). -/
def isPyWs (c : Char) : Bool :=
  c = ' ' || c = '\t' || c = '\n' || c = '\r' || c = '\x0b' || c = '\x0c'

/-- Python `str.strip()` with no argument. -/
def pyStrip (s : String) : String :=
  String.mk (((s.toList.dropWhile isPyWs).reverse.dropWhile isPyWs).reverse)

/-- The `if not task_id or not task_id.strip()` validation guard of
`get_logs`, with `none` standing for Python `None`. -/
def pyBlankOpt : Option String → Bool
  | none => true
  | some s => s.isEmpty || (pyStrip s).isEmpty

/-- Whether a character list starts with the given pattern. -/
def listStartsWith : List Char → List Char → Bool
  | [], _ => true
  | _ :: _, [] => false
  | p :: ps, c :: cs => p = c && listStartsWith ps cs

/-- Whether a character list contains the given pattern as a contiguous run. -/
def listContainsSeq (pat : List Char) : List Char → Bool
  | [] => listStartsWith pat []
  | c :: cs => listStartsWith pat (c :: cs) || listContainsSeq pat cs

/-- Python's `needle in haystack` substring test. -/
def strContainsSub (hay needle : String) : Bool :=
  listContainsSeq needle.toList hay.toList

/-- `f"/qrs/executionresult?filter=TaskId eq '{task_id}'"`. -/
def logsEndpoint (tid : String) : String :=
  "/qrs/executionresult?filter=TaskId eq \x27" ++ tid ++ "\x27"

/-- The response of the `/hub` request made by `QlikClient.authenticate`:
its status code and the cookie jar of `self.session` afterwards. -/
structure AuthResp where
  status : Nat
  cookies : List Cookie
deriving Repr, DecidableEq

/-- The response returned by `self.session.request` inside
`_make_authenticated_request`: a status code and the JSON body (already
decoded; `get_logs` is its only consumer here, so the body is a list of
execution results). -/
structure HttpResp where
  status : Nat
  json : List ExecResult
deriving Repr, DecidableEq

/-- Oracle record for the `requests` / `datetime` calls made by
`QlikClient`: the `/hub` authentication response and the per-attempt outcome
of `session.request`. -/
structure QCWorld where
  authResp : Except TransErr AuthResp
  req : Nat → Except TransErr HttpResp
  isoDeltaMs : String → String → Option Int

/-- The fields of a `QlikClient` instance used by the modelled methods. -/
structure QCState where
  server_url : String
  username : String
  session_id : Option String
  max_retries : Nat
deriving Repr, DecidableEq

/-- `QlikClient.authenticate` (src/qlik_client.py lines 94-155): one GET of
`/hub`; on 200 the session cookie is looked up (success stores it, absence
returns `False` without raising); 401/403 raise `QlikAuthenticationError`;
any other status and every `requests` exception raise
`QlikConnectionError`. -/
def qcAuthenticate (w : QCWorld) (c : QCState) : Except QErr (Bool × QCState) :=
  match w.authResp with
  | .error .timeout =>
    .error (.conn ("Timeout bij verbinding met server: " ++ c.server_url))
  | .error .connFail =>
    .error (.conn ("Kan geen verbinding maken met server: " ++ c.server_url))
  | .error (.reqExc m) => .error (.conn ("Request fout: " ++ m))
  | .error (.httpError st) =>
    .error (.conn ("Request fout: " ++ transMsg (.httpError st)))
  | .ok r =>
    if r.status = 200 then
      match findCookie "X-Qlik-Session" r.cookies with
      | some v => .ok (true, { c with session_id := some v })
      | none => .ok (false, c)
    else if r.status = 401 then
      .error (.auth ("Authenticatie mislukt voor gebruiker: " ++ c.username))
    else if r.status = 403 then
      .error (.auth ("Toegang geweigerd voor gebruiker: " ++ c.username))
    else
      .error (.conn ("Onverwachte response status: " ++ toString r.status))

/-- The `for attempt in range(self.max_retries)` loop of
`_make_authenticated_request` (lines 187-204): each attempt issues the
request and `raise_for_status`; a `requests` exception is retried after
`time.sleep(2 ** attempt)` unless it was the last attempt; exhaustion raises
`QlikConnectionError`.  Returns the result, the number of requests issued
and the total seconds slept. -/
def qcReqLoop (w : QCWorld) (mr : Nat) (ep : String) :
    Nat → Nat → Option TransErr → Except QErr HttpResp × Nat × Nat
  | _, 0, last =>
    (.error (.conn ("Request fout voor " ++ ep ++ " na " ++ toString mr
        ++ " pogingen: " ++ (match last with | none => "None" | some e => transMsg e))),
      0, 0)
  | attempt, fuel + 1, _last =>
    match w.req attempt with
    | .ok resp =>
      if resp.status ≥ 400 then
        let e := TransErr.httpError resp.status
        if attempt < mr - 1 then
          let (res, n, sl) := qcReqLoop w mr ep (attempt + 1) fuel (some e)
          (res, n + 1, sl + 2 ^ attempt)
        else
          let (res, n, sl) := qcReqLoop w mr ep (attempt + 1) fuel (some e)
          (res, n + 1, sl)
      else (.ok resp, 1, 0)
    | .error e =>
      if attempt < mr - 1 then
        let (res, n, sl) := qcReqLoop w mr ep (attempt + 1) fuel (some e)
        (res, n + 1, sl + 2 ^ attempt)
      else
        let (res, n, sl) := qcReqLoop w mr ep (attempt + 1) fuel (some e)
        (res, n + 1, sl)

/-- `QlikClient._make_authenticated_request` (lines 157-204): without an
active session it raises `QlikAuthenticationError` before issuing any
request (request count 0); otherwise it runs the retry loop. -/
def qcMakeAuthenticatedRequest (w : QCWorld) (c : QCState) (ep : String) :
    Except QErr HttpResp × Nat × Nat :=
  match c.session_id with
  | none => (.error (.auth "Geen actieve sessie, authenticatie vereist"), 0, 0)
  | some _ => qcReqLoop w c.max_retries ep 0 c.max_retries none

/-- `QlikClient.get_logs` (lines 373-534): validation before the `try` (and
before any request), then the authenticated request and the formatting/sort
pipeline.  An exception coming out of `_make_authenticated_request` is a
`QlikAuthenticationError`/`QlikConnectionError`, which matches neither the
`HTTPError` nor the `ValueError` handler and is therefore re-wrapped by the
final `except Exception` into a `QlikConnectionError`. -/
def qcGetLogs (w : QCWorld) (c : QCState) (taskId : Option String) :
    Except QErr (List FmtLog) × Nat × Nat :=
  if pyBlankOpt taskId then
    (.error (.valueError "Task ID is vereist en mag niet leeg zijn"), 0, 0)
  else
    let tid := pyStrip (taskId.getD "")
    match qcMakeAuthenticatedRequest w c (logsEndpoint tid) with
    | (.ok resp, n, sl) =>
      (.ok (sortLogsDesc (resp.json.map (formatLog w.isoDeltaMs tid))), n, sl)
    | (.error e, n, sl) =>
      (.error (.conn ("Onverwachte fout bij ophalen logs voor taak " ++ tid
          ++ ": " ++ qerrMsg e)), n, sl)

/-- Oracle record for the Playwright / `datetime` calls made by
`BrowserQlikClient`: browser startup, the `/hub` navigation (`none` when
`page.goto` returns no response object), the cookie jar as seen after the
initial load / the automatic login / the manual login, the login-form
interaction, the per-attempt `fetch` outcome of `_make_api_request` (body
already decoded to execution results) and the handle releases used by
`close`. -/
structure BQWorld where
  startBrowser : Except PyErr Unit
  goto : Except PyErr (Option Nat)
  cookies1 : List Cookie
  loginFieldsFound : Bool
  autoLogin : Except PyErr Unit
  cookies2 : List Cookie
  cookies3 : List Cookie
  fetch : Nat → Except PyErr (List ExecResult)
  isoDeltaMs : String → String → Option Int
  closePage : Except PyErr Unit
  closeContext : Except PyErr Unit
  closeBrowser : Except PyErr Unit
  stopPlaywright : Except PyErr Unit

/-- The fields of a `BrowserQlikClient` instance used by the modelled
methods (src/browser_qlik_client.py `__init__`). -/
structure BQState where
  playwright : Option Unit
  browser : Option Unit
  context : Option Unit
  page : Option Unit
  authenticated : Bool
  max_retries : Nat
deriving Repr, DecidableEq

/-- `BrowserQlikClient._start_browser` (lines 102-129): fills in every
missing handle; on a library failure the exception propagates to
`authenticate`'s outer handler. -/
def bqStartBrowser (w : BQWorld) (s : BQState) : Except PyErr BQState :=
  match w.startBrowser with
  | .error e => .error e
  | .ok _ =>
    .ok { s with playwright := some (), browser := some (),
                 context := some (), page := some () }

/-- The part of `BrowserQlikClient.authenticate` after a successful `/hub`
load (lines 173-291): session-cookie lookup, the automatic-login `try`
(whose exceptions are caught and logged), and the manual-login fallback
which raises `QlikAuthenticationError` when no cookie ever appears. -/
def bqAuthAfterLoad (w : BQWorld) (s : BQState) : Except QErr (Bool × BQState) :=
  match findCookie "X-Qlik-Session" w.cookies1 with
  | some _ => .ok (true, { s with authenticated := true })
  | none =>
    let afterAuto : Option String :=
      if w.loginFieldsFound then
        match w.autoLogin with
        | .error _ => none
        | .ok _ => findCookie "X-Qlik-Session" w.cookies2
      else none
    match afterAuto with
    | some _ => .ok (true, { s with authenticated := true })
    | none =>
      match findCookie "X-Qlik-Session" w.cookies3 with
      | some _ => .ok (true, { s with authenticated := true })
      | none => .error (.auth "Geen sessie cookie gevonden na login poging")

/-- `BrowserQlikClient.authenticate` (lines 131-297): no-op when already
authenticated; otherwise start the browser, navigate to `/hub` (any response
status ≥ 400 raises `QlikConnectionError`), then `bqAuthAfterLoad`.  Generic
exceptions are wrapped into `QlikConnectionError`; the two Qlik error kinds
are re-raised unchanged. -/
def bqAuthenticate (w : BQWorld) (s : BQState) : Except QErr (Bool × BQState) :=
  if s.authenticated then .ok (true, s)
  else
    match bqStartBrowser w s with
    | .error e =>
      .error (.conn ("Onverwachte fout tijdens authenticatie: " ++ pyMsg e))
    | .ok s1 =>
      match w.goto with
      | .error e =>
        .error (.conn ("Onverwachte fout tijdens authenticatie: " ++ pyMsg e))
      | .ok (some st) =>
        if st ≥ 400 then
          .error (.conn ("HTTP fout bij laden hub: " ++ toString st))
        else bqAuthAfterLoad w s1
      | .ok none => bqAuthAfterLoad w s1

/-- The retry loop of `BrowserQlikClient._make_api_request` (lines 323-380):
each attempt evaluates the fetch script; any exception is retried after
`time.sleep(2 ** attempt)` unless it was the last attempt; after exhaustion
the last message decides between `QlikAuthenticationError` (contains
`HTTP 401` or `HTTP 403`) and `QlikConnectionError`. -/
def bqFetchLoop (w : BQWorld) (mr : Nat) (ep : String) :
    Nat → Nat → Option PyErr → Except QErr (List ExecResult) × Nat × Nat
  | _, 0, last =>
    let m := pyMsgOpt last
    if strContainsSub m "HTTP 401" || strContainsSub m "HTTP 403" then
      (.error (.auth ("Authenticatie fout voor " ++ ep ++ ": " ++ m)), 0, 0)
    else
      (.error (.conn ("API request fout voor " ++ ep ++ " na " ++ toString mr
          ++ " pogingen: " ++ m)), 0, 0)
  | attempt, fuel + 1, _last =>
    match w.fetch attempt with
    | .ok result => (.ok result, 1, 0)
    | .error e =>
      if attempt < mr - 1 then
        let (res, n, sl) := bqFetchLoop w mr ep (attempt + 1) fuel (some e)
        (res, n + 1, sl + 2 ^ attempt)
      else
        let (res, n, sl) := bqFetchLoop w mr ep (attempt + 1) fuel (some e)
        (res, n + 1, sl)

/-- `BrowserQlikClient._make_api_request` (lines 299-380): raises
`QlikAuthenticationError` before any request when not authenticated, a
`QlikConnectionError` when no page exists, then runs the fetch retry loop. -/
def bqMakeApiRequest (w : BQWorld) (s : BQState) (ep : String) :
    Except QErr (List ExecResult) × Nat × Nat :=
  if s.authenticated = false then
    (.error (.auth "Niet geauthenticeerd, authenticatie vereist"), 0, 0)
  else
    match s.page with
    | none => (.error (.conn "Browser pagina niet beschikbaar"), 0, 0)
    | some _ => bqFetchLoop w s.max_retries ep 0 s.max_retries none

/-- `BrowserQlikClient.get_logs` (lines 535-669): validation before the
`try` and before any request; Qlik errors from `_make_api_request` are
re-raised unchanged, a successful response runs the shared formatting/sort
pipeline. -/
def bqGetLogs (w : BQWorld) (s : BQState) (taskId : Option String) :
    Except QErr (List FmtLog) × Nat × Nat :=
  if pyBlankOpt taskId then
    (.error (.valueError "Task ID is vereist en mag niet leeg zijn"), 0, 0)
  else
    let tid := pyStrip (taskId.getD "")
    match bqMakeApiRequest w s (logsEndpoint tid) with
    | (.ok rs, n, sl) =>
      (.ok (sortLogsDesc (rs.map (formatLog w.isoDeltaMs tid))), n, sl)
    | (.error e, n, sl) => (.error e, n, sl)

/-- `BrowserQlikClient.close` (lines 680-701): releases page, context,
browser, playwright in order and clears `authenticated`, with no `try`
around any step, so the first failing release propagates its exception (the
state reached at that point is carried in the error). -/
def bqClose (w : BQWorld) (s : BQState) : Except (PyErr × BQState) BQState :=
  match bqCloseStep s.page w.closePage { s with page := none } s with
  | .error r => .error r
  | .ok s1 =>
    match bqCloseStep s1.context w.closeContext { s1 with context := none } s1 with
    | .error r => .error r
    | .ok s2 =>
      match bqCloseStep s2.browser w.closeBrowser { s2 with browser := none } s2 with
      | .error r => .error r
      | .ok s3 =>
        match bqCloseStep s3.playwright w.stopPlaywright
            { s3 with playwright := none } s3 with
        | .error r => .error r
        | .ok s4 => .ok { s4 with authenticated := false }
where
  /-- one `if handle: handle.close(); handle = None` step. -/
  bqCloseStep (h : Option Unit) (outcome : Except PyErr Unit)
      (cleared keep : BQState) : Except (PyErr × BQState) BQState :=
    match h with
    | none => .ok keep
    | some _ =>
      match outcome with
      | .error e => .error (e, keep)
      | .ok _ => .ok cleared

/-- `Except.isOk` as a plain boolean (local helper). -/
def isOkB {ε α : Type} : Except ε α → Bool
  | .ok _ => true
  | .error _ => false

/-- Whether every construction step of `BrowserManager.start` would succeed
in the given world. -/
def bmBuildOk (w : BMWorld) : Bool :=
  isOkB w.startPlaywright && isOkB w.launchBrowser && isOkB w.newContext
    && isOkB w.newPage && isOkB w.setTimeouts

/-- A world in which every Playwright call succeeds (fresh contexts have an
empty cookie jar) and only the probe result is left to vary per fixture. -/
def bmAllOk : BMWorld :=
  { startPlaywright := .ok (), launchBrowser := .ok (), newContext := .ok []
    newPage := .ok (), setTimeouts := .ok (), probe := .ok ()
    closePage := .ok (), closeContext := .ok (), closeBrowser := .ok ()
    stopPlaywright := .ok () }

/-- Fixture for C2: every handle open, and `page.close()` raising. -/
def bmCloseFailWorld : BMWorld :=
  { bmAllOk with closePage := .error (.exc "page close failed") }

/-- Fixture for C2/C3/C4: a fully started manager. -/
def bmStartedState : BMState :=
  { playwright := some (), browser := some (), context := some [], page := some ()
    is_started := true, last_error := none }

/-- Fixture for C2: a `BrowserQlikClient` with every handle open. -/
def bqFullState : BQState :=
  { playwright := some (), browser := some (), context := some (), page := some ()
    authenticated := true, max_retries := 3 }

/-- Fixture for C2: `page.close()` raising inside `BrowserQlikClient.close`. -/
def bqCloseFailWorld : BQWorld :=
  { startBrowser := .ok (), goto := .ok (some 200), cookies1 := []
    loginFieldsFound := false, autoLogin := .ok (), cookies2 := [], cookies3 := []
    fetch := fun _ => .ok [], isoDeltaMs := fun _ _ => none
    closePage := .error (.exc "page close failed"), closeContext := .ok ()
    closeBrowser := .ok (), stopPlaywright := .ok () }

/-- Fixture for C3: every resource-construction call fails. -/
def bmAllFailWorld : BMWorld :=
  { startPlaywright := .error (.exc "pw down"), launchBrowser := .error (.exc "pw down")
    newContext := .error (.exc "pw down"), newPage := .error (.exc "pw down")
    setTimeouts := .error (.exc "pw down"), probe := .error (.exc "pw down")
    closePage := .ok (), closeContext := .ok (), closeBrowser := .ok ()
    stopPlaywright := .ok () }

/-- Fixture for C4: page creation and probing work, but a full restart would
fail because `sync_playwright().start()` fails. -/
def bmRecoverWorld : BMWorld :=
  { bmAllOk with startPlaywright := .error (.exc "pw down") }

/-- Fixture for C4: a started manager whose page is gone but whose context
survives. -/
def bmPageLostState : BMState :=
  { playwright := some (), browser := some (), context := some [], page := none
    is_started := true, last_error := none }

/-- Fixture for C4 (witness): a healthy started manager. -/
def bmHealthyState : BMState := bmStartedState

/-- Fixture for C6: a manager that is not started (`is_started = False`) yet
whose surviving context still holds a session cookie. -/
def bmStaleCookieState : BMState :=
  { playwright := none, browser := none
    context := some [{ name := "X-Qlik-Session", value := "secret-session" }]
    page := none, is_started := false, last_error := none }

/-- Fixture for C6/C7 witnesses: a `QlikClient` with no active session. -/
def qcNoSession : QCState :=
  { server_url := "https://qlik.example", username := "jdoe", session_id := none
    max_retries := 3 }

/-- Fixture for C7: `/hub` answers 200 but sets no `X-Qlik-Session` cookie. -/
def qcNoCookieWorld : QCWorld :=
  { authResp := .ok { status := 200, cookies := [{ name := "Other", value := "v" }] }
    req := fun _ => .error .timeout, isoDeltaMs := fun _ _ => none }

/-- Fixture for C7 witness: `/hub` answers 401. -/
def qc401World : QCWorld :=
  { authResp := .ok { status := 401, cookies := [] }
    req := fun _ => .error .timeout, isoDeltaMs := fun _ _ => none }

/-- Fixture for C7 witness: the hub navigation returns HTTP 401 to the
browser client. -/
def bq401World : BQWorld :=
  { startBrowser := .ok (), goto := .ok (some 401), cookies1 := []
    loginFieldsFound := false, autoLogin := .ok (), cookies2 := [], cookies3 := []
    fetch := fun _ => .ok [], isoDeltaMs := fun _ _ => none
    closePage := .ok (), closeContext := .ok (), closeBrowser := .ok ()
    stopPlaywright := .ok () }

/-- Fixture for C6/C7/C8 witnesses: an unauthenticated browser client. -/
def bqFreshState : BQState :=
  { playwright := none, browser := none, context := none, page := none
    authenticated := false, max_retries := 3 }

/-- Fixture for C8/C9 witnesses: an authenticated `QlikClient`. -/
def qcLive : QCState :=
  { server_url := "https://qlik.example", username := "jdoe"
    session_id := some "sess-1", max_retries := 3 }

/-- Fixture for C9 witness: two execution results delivered oldest-first. -/
def execFixture : List ExecResult :=
  [ { id := some "r1", status := some 7, task := some { name := some "Load" }
      details := some [], startTime := some "2024-01-01T00:00:00Z"
      stopTime := some "2024-01-01T00:10:00Z", duration := some 600000
      createdDate := some "2024-01-01", modifiedDate := some "2024-01-01"
      executionId := some "e1", sessionId := some "s1" }
  , { id := some "r2", status := some 8, task := some { name := some "Load" }
      details := some [{ message := some "boom", detailType := some 2, timestamp := some "t" }]
      startTime := some "2024-02-01T00:00:00Z", stopTime := some "2024-02-01T00:01:00Z"
      duration := some 60000, createdDate := some "2024-02-01"
      modifiedDate := some "2024-02-01", executionId := some "e2", sessionId := some "s2" } ]

/-- Fixture for C9 witness: the first request attempt succeeds with
`execFixture` as body. -/
def qcLogsWorld : QCWorld :=
  { authResp := .ok { status := 200, cookies := [] }
    req := fun _ => .ok { status := 200, json := execFixture }
    isoDeltaMs := fun _ _ => none }

/-- Fixture for C9 witness: the browser fetch succeeds with `execFixture`. -/
def bqLogsWorld : BQWorld :=
  { startBrowser := .ok (), goto := .ok (some 200), cookies1 := []
    loginFieldsFound := false, autoLogin := .ok (), cookies2 := [], cookies3 := []
    fetch := fun _ => .ok execFixture, isoDeltaMs := fun _ _ => none
    closePage := .ok (), closeContext := .ok (), closeBrowser := .ok ()
    stopPlaywright := .ok () }

/-- Fixture for C6/C8 witnesses: an authenticated browser client with a page. -/
def bqLive : BQState :=
  { playwright := some (), browser := some (), context := some (), page := some ()
    authenticated := true, max_retries := 3 }

/-- Fixture for C10: a context with duplicate cookie names. -/
def bmCookieState : BMState :=
  { playwright := some (), browser := some ()
    context := some [{ name := "Other", value := "1" }
      , { name := "X-Qlik-Session", value := "v2" }
      , { name := "X-Qlik-Session", value := "v3" }]
    page := some (), is_started := true, last_error := none }

/-! ## Helper lemmas -/

/-- When every release call succeeds, `cleanup` clears all four handles and
the started flag, leaving `last_error` untouched. -/
theorem bmCleanup_all_ok (w : BMWorld) (s : BMState)
    (hp : w.closePage = .ok ()) (hc : w.closeContext = .ok ())
    (hb : w.closeBrowser = .ok ()) (hw : w.stopPlaywright = .ok ()) :
    (bmCleanup w s).1 =
      { playwright := none, browser := none, context := none, page := none
        is_started := false, last_error := s.last_error } := by
  obtain ⟨pw, br, cx, pg, st, le⟩ := s
  cases pg <;> cases cx <;> cases br <;> cases pw <;>
    simp [bmCleanup, bmCleanup.bmCleanupPageDone, bmCleanupContext,
      bmCleanupBrowser, bmCleanupStop, hp, hc, hb, hw]

/-- The event trace of `cleanup` never contains a construction event. -/
theorem bmCleanup_no_startPW (w : BMWorld) (s : BMState) :
    BMEv.startPW ∉ (bmCleanup w s).2 := by
  obtain ⟨pw, br, cx, pg, st, le⟩ := s
  cases pg <;> cases cx <;> cases br <;> cases pw <;>
    rcases hcp : w.closePage with e1 | u1 <;>
    rcases hcc : w.closeContext with e2 | u2 <;>
    rcases hcb : w.closeBrowser with e3 | u3 <;>
    rcases hsp : w.stopPlaywright with e4 | u4 <;>
      simp [bmCleanup, bmCleanup.bmCleanupPageDone, bmCleanupContext,
        bmCleanupBrowser, bmCleanupStop, hcp, hcc, hcb, hsp]

/-- When every release call succeeds, `BrowserQlikClient.close` returns
normally with every handle cleared and `authenticated` reset. -/
theorem bqClose_all_ok (w : BQWorld) (s : BQState)
    (hp : w.closePage = .ok ()) (hc : w.closeContext = .ok ())
    (hb : w.closeBrowser = .ok ()) (hw : w.stopPlaywright = .ok ()) :
    bqClose w s =
      .ok { playwright := none, browser := none, context := none, page := none
            authenticated := false, max_retries := s.max_retries } := by
  obtain ⟨pw, br, cx, pg, au, mr⟩ := s
  cases pg <;> cases cx <;> cases br <;> cases pw <;>
    simp [bqClose, bqClose.bqCloseStep, hp, hc, hb, hw]

/-- A cookie list with no matching name yields no value. -/
theorem findCookie_of_not_mem (name : String) (l : List Cookie)
    (h : ∀ c ∈ l, c.name ≠ name) : findCookie name l = none := by
  induction l with
  | nil => rfl
  | cons c cs ih =>
    have hc : c.name ≠ name := h c (List.mem_cons_self c cs)
    simp only [findCookie, if_neg hc]
    exact ih fun x hx => h x (List.mem_cons_of_mem c hx)

/-- The scanning loop returns the value of the first matching cookie. -/
theorem findCookie_first (name : String) (pre : List Cookie) (c : Cookie)
    (post : List Cookie) (hc : c.name = name)
    (hpre : ∀ x ∈ pre, x.name ≠ name) :
    findCookie name (pre ++ c :: post) = some c.value := by
  induction pre with
  | nil => simp [findCookie, hc]
  | cons p ps ih =>
    have hp : p.name ≠ name := hpre p (List.mem_cons_self p ps)
    simp only [List.cons_append, findCookie, if_neg hp]
    exact ih fun x hx => hpre x (List.mem_cons_of_mem p hx)

/-- Inserting into the stable descending sort adds one element. -/
theorem insertLogDesc_length (x : FmtLog) (l : List FmtLog) :
    (insertLogDesc x l).length = l.length + 1 := by
  induction l with
  | nil => rfl
  | cons y ys ih =>
    simp only [insertLogDesc]
    split
    · simp
    · simp [ih]

/-- Membership in an insertion step. -/
theorem mem_insertLogDesc {z x : FmtLog} {l : List FmtLog} :
    z ∈ insertLogDesc x l ↔ z = x ∨ z ∈ l := by
  induction l with
  | nil => simp [insertLogDesc]
  | cons y ys ih =>
    simp only [insertLogDesc]
    split
    · simp [or_comm, or_left_comm]
    · simp [ih]
      tauto

/-- Insertion preserves the descending-by-`start_time` pairwise order. -/
theorem pairwise_insertLogDesc (x : FmtLog) (l : List FmtLog)
    (h : l.Pairwise (fun a b => b.start_time ≤ a.start_time)) :
    (insertLogDesc x l).Pairwise (fun a b => b.start_time ≤ a.start_time) := by
  induction l with
  | nil => simp [insertLogDesc]
  | cons y ys ih =>
    rw [List.pairwise_cons] at h
    obtain ⟨hy, hys⟩ := h
    simp only [insertLogDesc]
    split
    · rename_i hlt
      rw [List.pairwise_cons]
      refine ⟨?_, ?_⟩
      · intro z hz
        rcases List.mem_cons.mp hz with rfl | hz2
        · exact le_of_lt hlt
        · exact le_trans (hy z hz2) (le_of_lt hlt)
      · rw [List.pairwise_cons]
        exact ⟨hy, hys⟩
    · rename_i hnlt
      rw [List.pairwise_cons]
      refine ⟨?_, ih hys⟩
      intro z hz
      rcases mem_insertLogDesc.mp hz with rfl | hz2
      · exact le_of_not_lt hnlt
      · exact hy z hz2

/-- Folding the insertion over a list preserves total length. -/
theorem foldl_insertLogDesc_length (l acc : List FmtLog) :
    (l.foldl (fun a x => insertLogDesc x a) acc).length = acc.length + l.length := by
  induction l generalizing acc with
  | nil => simp
  | cons y ys ih =>
    simp only [List.foldl_cons, ih, insertLogDesc_length, List.length_cons]
    omega

/-- Folding the insertion over a list preserves the descending order. -/
theorem foldl_insertLogDesc_pairwise (l acc : List FmtLog)
    (h : acc.Pairwise (fun a b => b.start_time ≤ a.start_time)) :
    (l.foldl (fun a x => insertLogDesc x a) acc).Pairwise
      (fun a b => b.start_time ≤ a.start_time) := by
  induction l generalizing acc with
  | nil => exact h
  | cons y ys ih => exact ih _ (pairwise_insertLogDesc y acc h)

/-- The modelled Python sort keeps the list length. -/
theorem sortLogsDesc_length (l : List FmtLog) :
    (sortLogsDesc l).length = l.length := by
  simp [sortLogsDesc, foldl_insertLogDesc_length]

/-- The modelled Python sort produces a descending `start_time` order. -/
theorem sortLogsDesc_pairwise (l : List FmtLog) :
    (sortLogsDesc l).Pairwise (fun a b => b.start_time ≤ a.start_time) :=
  foldl_insertLogDesc_pairwise l [] (by simp)

/-- Geometric sum of the backoff schedule. -/
theorem sum_two_pow_range (m : Nat) :
    ∑ i ∈ Finset.range m, 2 ^ i = 2 ^ m - 1 := by
  induction m with
  | zero => simp
  | succ n ih =>
    rw [Finset.sum_range_succ, ih]
    have h1 : 0 < 2 ^ n := pow_pos (by norm_num) n
    have h2 : 2 ^ (n + 1) = 2 ^ n * 2 := pow_succ 2 n
    omega

/-- A true health check leaves the manager state unchanged. -/
theorem bmIsHealthy_state_of_true (w : BMWorld) (s : BMState)
    (h : (bmIsHealthy w s).1 = true) : (bmIsHealthy w s).2.1 = s := by
  obtain ⟨pw, br, cx, pg, st, le⟩ := s
  cases st <;> cases pg <;> rcases hp : w.probe with e | u <;>
    simp_all [bmIsHealthy]

/-- A health check never touches the context or browser handles. -/
theorem bmIsHealthy_preserves_handles (w : BMWorld) (s : BMState) :
    ((bmIsHealthy w s).2.1).context = s.context ∧
    ((bmIsHealthy w s).2.1).browser = s.browser := by
  obtain ⟨pw, br, cx, pg, st, le⟩ := s
  cases st <;> cases pg <;> rcases hp : w.probe with e | u <;>
    simp_all [bmIsHealthy]

/-! ## Claim theorems -/

/-- C2: the claim that teardown attempts to release every owned handle even
when an earlier release raises, never propagates, and clears every field, is
false on the code: with every handle open and `page.close()` raising,
`BrowserManager.cleanup` stops after the page step (context still set,
`is_started` still true, only one close event), and
`BrowserQlikClient.close` propagates the exception to its caller. -/
theorem c2_counterexample :
    (bmCleanup bmCloseFailWorld bmStartedState).1.page = some () ∧
    (bmCleanup bmCloseFailWorld bmStartedState).1.context = some [] ∧
    (bmCleanup bmCloseFailWorld bmStartedState).1.is_started = true ∧
    (bmCleanup bmCloseFailWorld bmStartedState).2 = [BMEv.closePage] ∧
    bqClose bqCloseFailWorld bqFullState =
      .error (.exc "page close failed", bqFullState) :=
  ⟨rfl, rfl, rfl, rfl, rfl⟩

/-- C2 (amended): teardown releases the handles in order page, context,
browser, playwright; when every release succeeds, both teardown paths clear
every handle field and reset the started/authenticated flag, and
`BrowserManager.cleanup` returns normally; but a failing release step stops
the remaining releases (and `BrowserQlikClient.close` additionally
propagates the exception). -/
theorem c2_cleanup_amended :
    (∀ (w : BMWorld) (s : BMState),
      w.closePage = .ok () → w.closeContext = .ok () → w.closeBrowser = .ok () →
      w.stopPlaywright = .ok () →
      (bmCleanup w s).1 =
        { playwright := none, browser := none, context := none, page := none
          is_started := false, last_error := s.last_error })
  ∧ (∀ (w : BQWorld) (s : BQState),
      w.closePage = .ok () → w.closeContext = .ok () → w.closeBrowser = .ok () →
      w.stopPlaywright = .ok () →
      bqClose w s =
        .ok { playwright := none, browser := none, context := none, page := none
              authenticated := false, max_retries := s.max_retries }) :=
  ⟨fun w s hp hc hb hw => bmCleanup_all_ok w s hp hc hb hw,
   fun w s hp hc hb hw => bqClose_all_ok w s hp hc hb hw⟩

/-- C2 witness: the amended statement at a concrete started manager and a
concrete client, with every release succeeding. -/
theorem c2_cleanup_amended_witness :
    (bmCleanup bmAllOk bmStartedState).1 =
      { playwright := none, browser := none, context := none, page := none
        is_started := false, last_error := none } ∧
    bqClose bqLogsWorld bqFullState =
      .ok { playwright := none, browser := none, context := none, page := none
            authenticated := false, max_retries := 3 } :=
  ⟨c2_cleanup_amended.1 bmAllOk bmStartedState rfl rfl rfl rfl,
   c2_cleanup_amended.2 bqLogsWorld bqFullState rfl rfl rfl rfl⟩

/-- C5: with no live resource (not started, or no page) the health check
returns false without raising, and a raising probe also yields false rather
than propagating (the model is a total function, so no exception escapes). -/
theorem c5_health_check_safe :
    (∀ (w : BMWorld) (s : BMState), s.is_started = false ∨ s.page = none →
      (bmIsHealthy w s).1 = false)
  ∧ (∀ (w : BMWorld) (s : BMState) (e : PyErr), w.probe = .error e →
      (bmIsHealthy w s).1 = false) := by
  constructor
  · intro w s h
    rcases h with h | h
    · simp [bmIsHealthy, h]
    · cases hs : s.is_started <;> simp [bmIsHealthy, h, hs]
  · intro w s e h
    cases hs : s.is_started <;> cases hp : s.page <;>
      simp [bmIsHealthy, h, hs, hp]

/-- C5 witness: the two parts at a fresh manager and at a started manager
whose probe raises. -/
theorem c5_health_check_safe_witness :
    (bmIsHealthy bmAllOk bmInit).1 = false ∧
    (bmIsHealthy bmAllFailWorld bmStartedState).1 = false :=
  ⟨c5_health_check_safe.1 bmAllOk bmInit (Or.inl rfl),
   c5_health_check_safe.2 bmAllFailWorld bmStartedState (.exc "pw down") rfl⟩

/-- C8: a `None`, empty or whitespace-only task id makes both `get_logs`
implementations raise the `ValueError` immediately, with zero requests
issued and zero retry sleeps, and the error is surfaced as the `ValueError`
itself rather than converted. -/
theorem c8_get_logs_validation :
    (∀ (w : QCWorld) (c : QCState) (t : Option String), pyBlankOpt t = true →
      qcGetLogs w c t =
        (.error (.valueError "Task ID is vereist en mag niet leeg zijn"), 0, 0))
  ∧ (∀ (w : BQWorld) (s : BQState) (t : Option String), pyBlankOpt t = true →
      bqGetLogs w s t =
        (.error (.valueError "Task ID is vereist en mag niet leeg zijn"), 0, 0)) := by
  constructor
  · intro w c t h
    simp [qcGetLogs, h]
  · intro w s t h
    simp [bqGetLogs, h]

/-- C8 witness: a whitespace-only and a `None` task id on live clients. -/
theorem c8_get_logs_validation_witness :
    pyBlankOpt (some "   ") = true ∧
    qcGetLogs qcLogsWorld qcLive (some "   ") =
      (.error (.valueError "Task ID is vereist en mag niet leeg zijn"), 0, 0) ∧
    bqGetLogs bqLogsWorld bqLive none =
      (.error (.valueError "Task ID is vereist en mag niet leeg zijn"), 0, 0) :=
  ⟨rfl, c8_get_logs_validation.1 qcLogsWorld qcLive (some "   ") rfl,
   c8_get_logs_validation.2 bqLogsWorld bqLive none rfl⟩

/-- C10: `get_session_cookie` returns the value of the first cookie of the
current context whose name matches, and `None` (without raising) when no
context is open — the cookie list is then empty — or no cookie matches. -/
theorem c10_session_cookie_first_match :
    ∀ (s : BMState) (name : String),
      (s.context = none → bmGetSessionCookie s name = none)
    ∧ (∀ pre c post, bmGetCookies s = pre ++ c :: post → c.name = name →
        (∀ x ∈ pre, x.name ≠ name) → bmGetSessionCookie s name = some c.value)
    ∧ ((∀ c ∈ bmGetCookies s, c.name ≠ name) → bmGetSessionCookie s name = none) := by
  intro s name
  refine ⟨?_, ?_, ?_⟩
  · intro h
    simp [bmGetSessionCookie, bmGetCookies, h, findCookie]
  · intro pre c post hsplit hc hpre
    unfold bmGetSessionCookie
    rw [hsplit]
    exact findCookie_first name pre c post hc hpre
  · intro h
    exact findCookie_of_not_mem name _ h

/-- C10 witness: no context, a duplicate-name jar (first value wins), and a
missing name, each through the theorem. -/
theorem c10_session_cookie_first_match_witness :
    bmGetSessionCookie bmInit "X-Qlik-Session" = none ∧
    bmGetSessionCookie bmCookieState "X-Qlik-Session" = some "v2" ∧
    bmGetSessionCookie bmCookieState "Absent" = none :=
  ⟨(c10_session_cookie_first_match bmInit "X-Qlik-Session").1 rfl,
   (c10_session_cookie_first_match bmCookieState "X-Qlik-Session").2.1
     [{ name := "Other", value := "1" }]
     { name := "X-Qlik-Session", value := "v2" }
     [{ name := "X-Qlik-Session", value := "v3" }] rfl rfl (by decide),
   (c10_session_cookie_first_match bmCookieState "Absent").2.2 (by decide)⟩

/-- C3: the claim that `start()` retries up to `max_retries` times and, when
the resource fails on every attempt, propagates a terminal error whose kind
distinguishes authentication from connectivity failures, is false on the
code: `BrowserManager.start` has no retry loop and no typed errors — with
every resource call failing it performs exactly one construction attempt
(one `sync_playwright().start()` event) and returns the plain boolean
`False`, raising nothing. -/
theorem c3_counterexample :
    bmStart bmAllFailWorld bmInit =
      (false, { bmInit with last_error := some (.exc "pw down") }, [BMEv.startPW]) :=
  rfl

/-- C3 (amended): when not already started and some construction step fails,
`start()` makes exactly one construction attempt, records the error, tears
the partially built resource down via `cleanup`, and returns `False`; when
the teardown's close calls succeed it leaves the manager uninitialized with
every handle cleared.  No error is propagated and no error kinds are
distinguished. -/
theorem c3_start_amended :
    ∀ (w : BMWorld) (s : BMState),
      s.is_started = false → bmBuildOk w = false →
      w.closePage = .ok () → w.closeContext = .ok () → w.closeBrowser = .ok () →
      w.stopPlaywright = .ok () →
      ∃ e : PyErr,
        (bmStart w s).1 = false ∧
        (bmStart w s).2.1 =
          { playwright := none, browser := none, context := none, page := none, is_started := false, last_error := some e } ∧
        ((bmStart w s).2.2).count BMEv.startPW = 1 := by
  intro w s hs hbuild hp hc hb hw
  obtain ⟨pw, br, cx, pg, st, le⟩ := s
  replace hs : st = false := hs
  subst hs
  have hcount : ∀ s' : BMState, ((bmCleanup w s').2).count BMEv.startPW = 0 :=
    fun s' => List.count_eq_zero.mpr (bmCleanup_no_startPW w s')
  rcases h1 : w.startPlaywright with e1 | u1
  · rcases hcl : bmCleanup w ⟨pw, br, cx, pg, false, some e1⟩ with ⟨s', es⟩
    have hst : bmStart w ⟨pw, br, cx, pg, false, le⟩ = (false, s', BMEv.startPW :: es) := by
      simp [bmStart, h1, hcl]
    have hs2 : s' = ⟨none, none, none, none, false, some e1⟩ := by
      have h := bmCleanup_all_ok w ⟨pw, br, cx, pg, false, some e1⟩ hp hc hb hw
      rw [hcl] at h
      simpa using h
    have hes : es.count BMEv.startPW = 0 := by
      have h := hcount ⟨pw, br, cx, pg, false, some e1⟩
      rw [hcl] at h
      simpa using h
    exact ⟨e1, by rw [hst], by rw [hst]; exact hs2, by rw [hst]; simp [List.count_cons, hes]⟩
  · rcases h2 : w.launchBrowser with e2 | u2
    · rcases hcl : bmCleanup w ⟨some (), br, cx, pg, false, some e2⟩ with ⟨s', es⟩
      have hst : bmStart w ⟨pw, br, cx, pg, false, le⟩ =
          (false, s', BMEv.startPW :: BMEv.launchBrowser :: es) := by
        simp [bmStart, h1, h2, hcl]
      have hs2 : s' = ⟨none, none, none, none, false, some e2⟩ := by
        have h := bmCleanup_all_ok w ⟨some (), br, cx, pg, false, some e2⟩ hp hc hb hw
        rw [hcl] at h
        simpa using h
      have hes : es.count BMEv.startPW = 0 := by
        have h := hcount ⟨some (), br, cx, pg, false, some e2⟩
        rw [hcl] at h
        simpa using h
      exact ⟨e2, by rw [hst], by rw [hst]; exact hs2, by rw [hst]; simp [List.count_cons, hes]⟩
    · rcases h3 : w.newContext with e3 | ctx
      · rcases hcl : bmCleanup w ⟨some (), some (), cx, pg, false, some e3⟩ with ⟨s', es⟩
        have hst : bmStart w ⟨pw, br, cx, pg, false, le⟩ =
            (false, s', BMEv.startPW :: BMEv.launchBrowser :: BMEv.newContext :: es) := by
          simp [bmStart, h1, h2, h3, hcl]
        have hs2 : s' = ⟨none, none, none, none, false, some e3⟩ := by
          have h := bmCleanup_all_ok w ⟨some (), some (), cx, pg, false, some e3⟩ hp hc hb hw
          rw [hcl] at h
          simpa using h
        have hes : es.count BMEv.startPW = 0 := by
          have h := hcount ⟨some (), some (), cx, pg, false, some e3⟩
          rw [hcl] at h
          simpa using h
        exact ⟨e3, by rw [hst], by rw [hst]; exact hs2, by rw [hst]; simp [List.count_cons, hes]⟩
      · rcases h4 : w.newPage with e4 | u4
        · rcases hcl : bmCleanup w ⟨some (), some (), some ctx, pg, false, some e4⟩ with ⟨s', es⟩
          have hst : bmStart w ⟨pw, br, cx, pg, false, le⟩ = (false, s',
              BMEv.startPW :: BMEv.launchBrowser :: BMEv.newContext :: BMEv.newPage :: es) := by
            simp [bmStart, h1, h2, h3, h4, hcl]
          have hs2 : s' = ⟨none, none, none, none, false, some e4⟩ := by
            have h := bmCleanup_all_ok w ⟨some (), some (), some ctx, pg, false, some e4⟩ hp hc hb hw
            rw [hcl] at h
            simpa using h
          have hes : es.count BMEv.startPW = 0 := by
            have h := hcount ⟨some (), some (), some ctx, pg, false, some e4⟩
            rw [hcl] at h
            simpa using h
          exact ⟨e4, by rw [hst], by rw [hst]; exact hs2, by rw [hst]; simp [List.count_cons, hes]⟩
        · rcases h5 : w.setTimeouts with e5 | u5
          · rcases hcl : bmCleanup w ⟨some (), some (), some ctx, some (), false, some e5⟩ with ⟨s', es⟩
            have hst : bmStart w ⟨pw, br, cx, pg, false, le⟩ = (false, s',
                BMEv.startPW :: BMEv.launchBrowser :: BMEv.newContext :: BMEv.newPage :: es) := by
              simp [bmStart, h1, h2, h3, h4, h5, hcl]
            have hs2 : s' = ⟨none, none, none, none, false, some e5⟩ := by
              have h := bmCleanup_all_ok w ⟨some (), some (), some ctx, some (), false, some e5⟩ hp hc hb hw
              rw [hcl] at h
              simpa using h
            have hes : es.count BMEv.startPW = 0 := by
              have h := hcount ⟨some (), some (), some ctx, some (), false, some e5⟩
              rw [hcl] at h
              simpa using h
            exact ⟨e5, by rw [hst], by rw [hst]; exact hs2, by rw [hst]; simp [List.count_cons, hes]⟩
          · exfalso
            simp [bmBuildOk, isOkB, h1, h2, h3, h4, h5] at hbuild

/-- C3 witness: the amended statement at the fresh manager against the
all-failing world. -/
theorem c3_start_amended_witness :
    ∃ e : PyErr,
      (bmStart bmAllFailWorld bmInit).1 = false ∧
      (bmStart bmAllFailWorld bmInit).2.1 =
        { playwright := none, browser := none, context := none, page := none, is_started := false, last_error := some e } ∧
      ((bmStart bmAllFailWorld bmInit).2.2).count BMEv.startPW = 1 :=
  c3_start_amended bmAllFailWorld bmInit rfl rfl rfl rfl rfl rfl

/-- C4: the claim that a failed health check always leads `recover` to call
`restart` and return its result is false on the code: with a started manager
whose page is gone but whose context survives, and a world in which page
creation and probing work while `sync_playwright().start()` fails,
`recover_from_error` heals through its intermediate new-page path and
returns `True`, while `restart` from the same state would return `False`. -/
theorem c4_counterexample :
    (bmIsHealthy bmRecoverWorld bmPageLostState).1 = false ∧
    (bmRecover bmRecoverWorld bmPageLostState).1 = true ∧
    (bmRestart bmRecoverWorld bmPageLostState).1 = false :=
  ⟨rfl, rfl, rfl⟩

/-- C4 (amended): when the health check passes, `recover_from_error` is a
no-op returning `True` with the state unchanged; when it fails, the method
first tries to replace the page (context present, page gone) and then the
context (browser present, context gone), and only when neither intermediate
repair applies does it behave as `restart`, returning its result. -/
theorem c4_recover_amended :
    (∀ (w : BMWorld) (s : BMState), (bmIsHealthy w s).1 = true →
      (bmRecover w s).1 = true ∧ (bmRecover w s).2.1 = s)
  ∧ (∀ (w : BMWorld) (s : BMState), (bmIsHealthy w s).1 = false →
      s.context = none → s.browser = none →
      (bmRecover w s).1 = (bmRestart w ((bmIsHealthy w s).2.1)).1) := by
  constructor
  · intro w s h
    have hst := bmIsHealthy_state_of_true w s h
    rcases hH : bmIsHealthy w s with ⟨b, s1, es⟩
    rw [hH] at h hst
    simp only at h hst
    subst h
    simp [bmRecover, hH, hst]
  · intro w s h hc hb
    have hpres := bmIsHealthy_preserves_handles w s
    rcases hH : bmIsHealthy w s with ⟨b, s1, es⟩
    rw [hH] at h hpres
    simp only at h hpres
    subst h
    have hc1 : s1.context = none := by rw [hpres.1, hc]
    have hb1 : s1.browser = none := by rw [hpres.2, hb]
    rcases hR : bmRestart w s1 with ⟨b4, s4, e4⟩
    simp [bmRecover, hH, bmRecover.bmRecoverPage, bmRecover.bmRecoverContext,
      hc1, hb1, hR]

/-- C4 witness: the no-op direction on a healthy manager, and the
restart-delegation direction on a fresh manager with no context and no
browser. -/
theorem c4_recover_amended_witness :
    ((bmRecover bmAllOk bmHealthyState).1 = true ∧
      (bmRecover bmAllOk bmHealthyState).2.1 = bmHealthyState) ∧
    (bmRecover bmAllOk bmInit).1 = (bmRestart bmAllOk ((bmIsHealthy bmAllOk bmInit).2.1)).1 :=
  ⟨c4_recover_amended.1 bmAllOk bmHealthyState rfl,
   c4_recover_amended.2 bmAllOk bmInit rfl rfl rfl⟩

/-- C6: the claim that every public path yielding the session credential
yields it only when a live authenticated resource exists is false on the
code: `BrowserManager.get_session_cookie` performs no state check at all,
so a manager whose `is_started` flag is false but whose surviving context
still lists the session cookie hands the credential out. -/
theorem c6_counterexample :
    bmStaleCookieState.is_started = false ∧
    bmGetSessionCookie bmStaleCookieState "X-Qlik-Session" = some "secret-session" :=
  ⟨rfl, rfl⟩

/-- C6 (amended): both request-issuing operations do enforce the guard —
with no session id (resp. `authenticated` false) they raise the
authentication error before any request is issued (zero requests, zero
sleeps) — but `get_session_cookie` returns the credential based solely on
the cookie list of the current context, without any started or
authenticated check. -/
theorem c6_request_guard_amended :
    (∀ (w : QCWorld) (c : QCState) (ep : String), c.session_id = none →
      qcMakeAuthenticatedRequest w c ep =
        (.error (.auth "Geen actieve sessie, authenticatie vereist"), 0, 0))
  ∧ (∀ (w : BQWorld) (s : BQState) (ep : String), s.authenticated = false →
      bqMakeApiRequest w s ep =
        (.error (.auth "Niet geauthenticeerd, authenticatie vereist"), 0, 0)) := by
  constructor
  · intro w c ep h
    simp [qcMakeAuthenticatedRequest, h]
  · intro w s ep h
    simp [bqMakeApiRequest, h]

/-- C6 witness: the guard at a sessionless REST client and an
unauthenticated browser client. -/
theorem c6_request_guard_amended_witness :
    qcMakeAuthenticatedRequest qcNoCookieWorld qcNoSession "/qrs/app/full" =
      (.error (.auth "Geen actieve sessie, authenticatie vereist"), 0, 0) ∧
    bqMakeApiRequest bqLogsWorld bqFreshState "/qrs/app/full" =
      (.error (.auth "Niet geauthenticeerd, authenticatie vereist"), 0, 0) :=
  ⟨c6_request_guard_amended.1 qcNoCookieWorld qcNoSession "/qrs/app/full" rfl,
   c6_request_guard_amended.2 bqLogsWorld bqFreshState "/qrs/app/full" rfl⟩

/-- C7: the claim that `authenticate` fails with an `AuthenticationError`
exactly when the remote rejects the identity or no usable session cookie
can be extracted is false on the code: `QlikClient.authenticate` against a
200 response that carries no `X-Qlik-Session` cookie returns `False`
without raising anything. -/
theorem c7_counterexample :
    qcAuthenticate qcNoCookieWorld qcNoSession = .ok (false, qcNoSession) :=
  rfl

/-- C7 (amended): `QlikClient.authenticate` raises the authentication error
exactly on an explicit 401/403; on a 200 with a session cookie it succeeds
storing the credential, on a 200 without one it returns `False` without
raising; every transport failure and every other status raises the
connection error, and the result type admits no other outcome.
`BrowserQlikClient.authenticate` raises the connection error for any hub
response status ≥ 400 (including 401/403) and the authentication error when
no session cookie is found after the login attempts. -/
theorem c7_auth_taxonomy_amended :
    (∀ (w : QCWorld) (c : QCState) (r : AuthResp), w.authResp = .ok r →
      r.status = 200 → findCookie "X-Qlik-Session" r.cookies = none →
      qcAuthenticate w c = .ok (false, c))
  ∧ (∀ (w : QCWorld) (c : QCState) (r : AuthResp) (v : String), w.authResp = .ok r →
      r.status = 200 → findCookie "X-Qlik-Session" r.cookies = some v →
      qcAuthenticate w c = .ok (true, { c with session_id := some v }))
  ∧ (∀ (w : QCWorld) (c : QCState) (r : AuthResp), w.authResp = .ok r →
      r.status = 401 ∨ r.status = 403 →
      ∃ m, qcAuthenticate w c = .error (.auth m))
  ∧ (∀ (w : QCWorld) (c : QCState) (r : AuthResp), w.authResp = .ok r →
      r.status ≠ 200 → r.status ≠ 401 → r.status ≠ 403 →
      ∃ m, qcAuthenticate w c = .error (.conn m))
  ∧ (∀ (w : QCWorld) (c : QCState) (e : TransErr), w.authResp = .error e →
      ∃ m, qcAuthenticate w c = .error (.conn m))
  ∧ (∀ (w : BQWorld) (s : BQState) (st : Nat), s.authenticated = false →
      w.startBrowser = .ok () → w.goto = .ok (some st) → 400 ≤ st →
      bqAuthenticate w s = .error (.conn ("HTTP fout bij laden hub: " ++ toString st)))
  ∧ (∀ (w : BQWorld) (s : BQState), s.authenticated = false →
      w.startBrowser = .ok () → w.goto = .ok none →
      findCookie "X-Qlik-Session" w.cookies1 = none →
      findCookie "X-Qlik-Session" w.cookies2 = none →
      findCookie "X-Qlik-Session" w.cookies3 = none →
      bqAuthenticate w s = .error (.auth "Geen sessie cookie gevonden na login poging")) := by
  refine ⟨?_, ?_, ?_, ?_, ?_, ?_, ?_⟩
  · intro w c r hw h200 hck
    simp [qcAuthenticate, hw, h200, hck]
  · intro w c r v hw h200 hck
    simp [qcAuthenticate, hw, h200, hck]
  · intro w c r hw h
    rcases h with h | h
    · exact ⟨"Authenticatie mislukt voor gebruiker: " ++ c.username,
        by simp [qcAuthenticate, hw, h]⟩
    · exact ⟨"Toegang geweigerd voor gebruiker: " ++ c.username,
        by simp [qcAuthenticate, hw, h]⟩
  · intro w c r hw h200 h401 h403
    exact ⟨"Onverwachte response status: " ++ toString r.status,
      by simp [qcAuthenticate, hw, h200, h401, h403]⟩
  · intro w c e hw
    cases e with
    | timeout =>
      exact ⟨"Timeout bij verbinding met server: " ++ c.server_url,
        by simp [qcAuthenticate, hw]⟩
    | connFail =>
      exact ⟨"Kan geen verbinding maken met server: " ++ c.server_url,
        by simp [qcAuthenticate, hw]⟩
    | reqExc m =>
      exact ⟨"Request fout: " ++ m, by simp [qcAuthenticate, hw]⟩
    | httpError st =>
      exact ⟨"Request fout: " ++ transMsg (.httpError st), by simp [qcAuthenticate, hw]⟩
  · intro w s st hauth hsb hgoto hst
    simp [bqAuthenticate, hauth, bqStartBrowser, hsb, hgoto, hst]
  · intro w s hauth hsb hgoto h1 h2 h3
    cases hf : w.loginFieldsFound <;>
      rcases hal : w.autoLogin with e | u <;>
        simp [bqAuthenticate, hauth, bqStartBrowser, hsb, hgoto,
          bqAuthAfterLoad, h1, h2, h3, hf, hal]

/-- C7 witness: a 401 rejection through the REST client and a 401 hub load
through the browser client. -/
theorem c7_auth_taxonomy_amended_witness :
    (∃ m, qcAuthenticate qc401World qcNoSession = .error (.auth m)) ∧
    bqAuthenticate bq401World bqFreshState =
      .error (.conn ("HTTP fout bij laden hub: " ++ toString 401)) :=
  ⟨c7_auth_taxonomy_amended.2.2.1 qc401World qcNoSession
      { status := 401, cookies := [] } rfl (Or.inl rfl),
   c7_auth_taxonomy_amended.2.2.2.2.2.1 bq401World bqFreshState 401 rfl rfl rfl
      (by norm_num)⟩

/-- C9: on a successful request, both `get_logs` implementations return one
formatted entry per received execution result — the same length — sorted by
the `start_time` string in descending lexicographic order (newest first). -/
theorem c9_get_logs_sorted :
    (∀ (w : QCWorld) (c : QCState) (t : String) (resp : HttpResp) (n sl : Nat),
      pyBlankOpt (some t) = false →
      qcMakeAuthenticatedRequest w c (logsEndpoint (pyStrip t)) = (.ok resp, n, sl) →
      ∃ out, qcGetLogs w c (some t) = (.ok out, n, sl) ∧
        out.length = resp.json.length ∧
        out.Pairwise (fun a b => b.start_time ≤ a.start_time))
  ∧ (∀ (w : BQWorld) (s : BQState) (t : String) (rs : List ExecResult) (n sl : Nat),
      pyBlankOpt (some t) = false →
      bqMakeApiRequest w s (logsEndpoint (pyStrip t)) = (.ok rs, n, sl) →
      ∃ out, bqGetLogs w s (some t) = (.ok out, n, sl) ∧
        out.length = rs.length ∧
        out.Pairwise (fun a b => b.start_time ≤ a.start_time)) := by
  constructor
  · intro w c t resp n sl hblank hreq
    refine ⟨sortLogsDesc (resp.json.map (formatLog w.isoDeltaMs (pyStrip t))),
      ?_, ?_, sortLogsDesc_pairwise _⟩
    · simp [qcGetLogs, hblank, hreq]
    · simp [sortLogsDesc_length]
  · intro w s t rs n sl hblank hreq
    refine ⟨sortLogsDesc (rs.map (formatLog w.isoDeltaMs (pyStrip t))),
      ?_, ?_, sortLogsDesc_pairwise _⟩
    · simp [bqGetLogs, hblank, hreq]
    · simp [sortLogsDesc_length]

/-- C9 witness: a two-element, oldest-first QRS answer through both
clients. -/
theorem c9_get_logs_sorted_witness :
    (∃ out, qcGetLogs qcLogsWorld qcLive (some "taskX") = (.ok out, 1, 0) ∧
      out.length = execFixture.length ∧
      out.Pairwise (fun a b => b.start_time ≤ a.start_time)) ∧
    (∃ out, bqGetLogs bqLogsWorld bqLive (some "taskX") = (.ok out, 1, 0) ∧
      out.length = execFixture.length ∧
      out.Pairwise (fun a b => b.start_time ≤ a.start_time)) :=
  ⟨c9_get_logs_sorted.1 qcLogsWorld qcLive "taskX"
      { status := 200, json := execFixture } 1 0 rfl rfl,
   c9_get_logs_sorted.2 bqLogsWorld bqLive "taskX" execFixture 1 0 rfl rfl⟩

/-- With an always-failing operation, the health-check-and-run part of one
`execute_with_retry` iteration always ends in the `except` branch. -/
theorem bmTryBodyStarted_fails {α : Type} (w : BMWorld)
    (op : Nat → Option Unit → Except PyErr α)
    (hop : ∀ i p, ∃ e, op i p = .error e) (i : Nat) (s : BMState) :
    ∃ e s1, bmTryBody.bmTryBodyStarted w op i s = (.error e, s1) := by
  unfold bmTryBody.bmTryBodyStarted
  rcases hH : bmIsHealthy w s with ⟨h, s1, es⟩
  cases h
  · rcases hR : bmRecover w s1 with ⟨r, s2, es2⟩
    cases r
    · exact ⟨.exc "Kon browser niet herstellen", s2, by simp [hH, hR]⟩
    · obtain ⟨e, he⟩ := hop i s2.page
      exact ⟨e, s2, by simp [hH, hR, he]⟩
  · obtain ⟨e, he⟩ := hop i s1.page
    exact ⟨e, s1, by simp [hH, he]⟩

/-- With an always-failing operation, every iteration body of
`execute_with_retry` raises. -/
theorem bmTryBody_fails {α : Type} (w : BMWorld)
    (op : Nat → Option Unit → Except PyErr α)
    (hop : ∀ i p, ∃ e, op i p = .error e) (i : Nat) (s : BMState) :
    ∃ e s1, bmTryBody w op i s = (.error e, s1) := by
  unfold bmTryBody
  cases hs : s.is_started
  · rcases hS : bmStart w s with ⟨b, s1, es⟩
    cases b
    · exact ⟨.exc "Kon browser niet starten", s1, by simp [hs, hS]⟩
    · obtain ⟨e, s2, h⟩ := bmTryBodyStarted_fails w op hop i s1
      exact ⟨e, s2, by simp [hs, hS, h]⟩
  · obtain ⟨e, s2, h⟩ := bmTryBodyStarted_fails w op hop i s
    exact ⟨e, s2, by simp [hs, h]⟩

/-- With an always-failing operation, the remaining loop of
`execute_with_retry` runs all its iterations, sleeps
`2^attempt + … + 2^(max_retries-1)` seconds, and ends in the final raise. -/
theorem bmExecLoop_fails {α : Type} (w : BMWorld)
    (op : Nat → Option Unit → Except PyErr α) (m : Nat)
    (hop : ∀ i p, ∃ e, op i p = .error e) :
    ∀ (fuel attempt : Nat) (s : BMState) (last : Option PyErr),
      attempt + fuel = m + 1 →
      ∃ msg sFin,
        bmExecLoop w op m attempt fuel s last =
          (.error (.exc ("Operatie mislukt na " ++ toString (m + 1)
              ++ " pogingen: " ++ msg)), sFin, fuel, 2 ^ m - 2 ^ attempt) := by
  intro fuel
  induction fuel with
  | zero =>
    intro attempt s last h
    refine ⟨pyMsgOpt last, s, ?_⟩
    have hle : 2 ^ m ≤ 2 ^ attempt := Nat.pow_le_pow_right (by norm_num) (by omega)
    simp only [bmExecLoop, Prod.mk.injEq]
    refine ⟨?_, ?_, ?_, ?_⟩ <;> first | trivial | omega
  | succ fuel ih =>
    intro attempt s last h
    obtain ⟨e, s1, htb⟩ := bmTryBody_fails w op hop attempt s
    by_cases hlt : attempt < m
    · rcases hR : bmRecover w s1 with ⟨b2, s2, es2⟩
      obtain ⟨msg, sFin, hrec⟩ := ih (attempt + 1) s2 (some e) (by omega)
      refine ⟨msg, sFin, ?_⟩
      have hle : 2 ^ (attempt + 1) ≤ 2 ^ m := Nat.pow_le_pow_right (by norm_num) (by omega)
      have hpow : 2 ^ (attempt + 1) = 2 ^ attempt * 2 := pow_succ 2 attempt
      simp only [bmExecLoop, htb, hlt, ite_true, if_true, hR, hrec, Prod.mk.injEq]
      refine ⟨?_, ?_, ?_, ?_⟩ <;> first | trivial | omega
    · have heq : attempt = m := by omega
      obtain ⟨msg, sFin, hrec⟩ := ih (attempt + 1) s1 (some e) (by omega)
      refine ⟨msg, sFin, ?_⟩
      have h1 : 2 ^ m ≤ 2 ^ (attempt + 1) := Nat.pow_le_pow_right (by norm_num) (by omega)
      have h2 : 2 ^ attempt = 2 ^ m := by rw [heq]
      simp only [bmExecLoop, htb, hlt, ite_false, if_false, hrec, Prod.mk.injEq]
      refine ⟨?_, ?_, ?_, ?_⟩ <;> first | trivial | omega

/-- C1: with an operation that fails on every attempt,
`BrowserManager.execute_with_retry` performs exactly `max_retries + 1`
attempts, sleeps exactly `2^0 + … + 2^(max_retries-1)` seconds in total
(the code's base delay is the fixed unit of one second), and raises an
error that wraps the last underlying failure message and reports the
attempt count. -/
theorem c1_retry_exhaustion :
    ∀ {α : Type} (w : BMWorld) (s : BMState)
      (op : Nat → Option Unit → Except PyErr α) (m : Nat),
      (∀ i p, ∃ e, op i p = .error e) →
      ∃ msg sFin,
        bmExecuteWithRetry w op m s =
          (.error (.exc ("Operatie mislukt na " ++ toString (m + 1)
              ++ " pogingen: " ++ msg)), sFin, m + 1, 2 ^ m - 1) ∧
        2 ^ m - 1 = ∑ i ∈ Finset.range m, 2 ^ i := by
  intro α w s op m hop
  obtain ⟨msg, sFin, h⟩ := bmExecLoop_fails w op m hop (m + 1) 0 s none (by omega)
  refine ⟨msg, sFin, ?_, (sum_two_pow_range m).symm⟩
  simpa [bmExecuteWithRetry] using h

/-- C1 witness: three failing attempts (`max_retries = 2`) from a fresh
manager in an otherwise healthy world. -/
theorem c1_retry_exhaustion_witness :
    ∃ msg sFin,
      bmExecuteWithRetry bmAllOk (fun _ _ => (.error (.exc "boom") : Except PyErr Unit))
          2 bmInit =
        (.error (.exc ("Operatie mislukt na " ++ toString (2 + 1)
            ++ " pogingen: " ++ msg)), sFin, 2 + 1, 2 ^ 2 - 1) ∧
      2 ^ 2 - 1 = ∑ i ∈ Finset.range 2, 2 ^ i :=
  c1_retry_exhaustion bmAllOk bmInit (fun _ _ => .error (.exc "boom")) 2
    (fun _ _ => ⟨.exc "boom", rfl⟩)
